import Mathlib

/-!
Verification development for the Thorlabs Kinesis single-axis stage adapter
(`SingleAxisStage.cpp`).

The stage controller's hardware collaborator (the `MotorDrive` handle) is
modelled as a record of the responses the hardware gives during one run of a
controller method; the controller itself is a record of its member variables,
and each member function becomes a Lean function returning the MM status code,
the updated controller state and the list of hardware commands issued.
Dereferencing an absent handle (a null `std::unique_ptr<MotorDrive>`) is
undefined behaviour in C++ and is modelled by `Option.none`.

Physical values (`double` in the source) are modelled as exact rationals; the
concrete scenarios checked below involve only values on which binary floating
point and exact arithmetic agree (the scaled step values are hundreds of
units away from the nearest rounding boundary, far above the double rounding
error at these magnitudes).
-/

namespace Kinesis

/-- Host-framework status code for success (from `MMDeviceConstants.h`,
external to this repository): 0 means OK. -/
def DEVICE_OK : Int := 0

/-- Host-framework generic error code (external constant; nonzero). -/
def DEVICE_ERR : Int := 1

/-- Host-framework code for an unsupported operation (external constant;
its concrete value is immaterial to the claims, which compare against the
named constant; it is nonzero and distinct from the offset-encoded range). -/
def DEVICE_UNSUPPORTED_COMMAND : Int := 11

/-- Modelled from the spec: `ERR_OFFSET` is declared in `Errors.h`, which is
not among the source files; the spec only requires vendor codes to be
surfaced offset-encoded, distinct from generic host codes. The concrete
value is immaterial to every claim. -/
def ERR_OFFSET : Int := 20000

/-- Modelled from the spec: the named status bit for clockwise motion.
`MotorDrive.h` (declaring the named bits used at lines 271-277 of
`SingleAxisStage.cpp`) is not among the source files; the spec fixes five
named, distinct bits combined with bitwise OR. The concrete bit positions
are immaterial to the claims, only their distinctness. -/
def StatusBitsMovingCW : Nat := 0x10

/-- Modelled from the spec: status bit for counterclockwise motion. -/
def StatusBitsMovingCCW : Nat := 0x20

/-- Modelled from the spec: status bit for clockwise jogging. -/
def StatusBitsJoggingCW : Nat := 0x40

/-- Modelled from the spec: status bit for counterclockwise jogging. -/
def StatusBitsJoggingCCW : Nat := 0x80

/-- Modelled from the spec: status bit for homing in progress. -/
def StatusBitsHoming : Nat := 0x200

/-- Signed 32-bit minimum, the value of `std::numeric_limits<int>::min()`
used by `clamp_int` (`SingleAxisStage.cpp` lines 62-68). -/
def intMin : Int := -(2 ^ 31)

/-- Signed 32-bit maximum, the value of `std::numeric_limits<int>::max()`. -/
def intMax : Int := 2 ^ 31 - 1

/-- The anonymous-namespace helper `clamp` (lines 57-60) instantiated at the
`int` limits as in `clamp_int` (lines 62-68):
`max(lower, min(upper, value))` followed by the (now lossless) cast. -/
def clamp_int (value : Int) : Int := max intMin (min intMax value)

/-- `std::round` as used at line 296: round half away from zero, on exact
rationals. -/
def roundAwayFromZero (q : ℚ) : Int :=
  if 0 ≤ q then ⌊q + 1 / 2⌋ else ⌈q - 1 / 2⌉

/-- Behaviour of the hardware collaborator (the `MotorDrive` handle and its
underlying connection) during one run: each field is the response the
corresponding vendor call returns. Vendor codes are `short`s in the source;
0 means success. -/
structure MotorDrive where
  /-- `MakeConnection` returned null inside `Connect()` (line 369,
  commented "Shouldn't happen"). -/
  connectReturnsNull : Bool
  /-- `GetConnection()->IsValid()` (line 143). -/
  connectionValid : Bool
  /-- `GetConnection()->ConnectionError()` (line 144). -/
  connectionError : Int
  /-- Code returned by `RequestPosition()` (line 174). -/
  requestPositionErr : Int
  /-- Code returned by `RequestStatusBits()` (line 178). -/
  requestStatusBitsErr : Int
  /-- Result of `StartPolling` (line 182); failure is only logged. -/
  startPollingOk : Bool
  /-- `IsChannelEnabled()` (line 189). -/
  isChannelEnabled : Bool
  /-- Code returned by `SetChannelEnabled(true)` (line 194). -/
  setChannelEnabledErr : Int
  /-- Code returned by `MoveToPosition` (line 335). -/
  moveToPositionErr : Int
  /-- `CanHome()` (line 347). -/
  canHome : Bool
  /-- Code returned by `Home()` (line 354). -/
  homeErr : Int
  /-- `GetStatusBits()` (line 270): latest polled status bitmask (DWORD). -/
  statusBits : Nat
  /-- `GetPositionCounter()` (line 325): latest polled position. -/
  positionCounter : Int
deriving DecidableEq

/-- The configuration properties read by `Initialize` (lines 155-168):
the stage-type selector and the two scale factors. `stageTypeIsLinear`
is whether the `StageType` property string equals `"Linear"`. -/
structure StageConfig where
  stageTypeIsLinear : Bool
  deviceUnitsPerMillimeter : ℚ
  deviceUnitsPerRevolution : ℚ
deriving DecidableEq

/-- Member variables of `SingleAxisStage`. Times (`MM::MMTime`) are in
milliseconds, modelled as rationals. -/
structure SingleAxisStage where
  homed : Bool
  initialized : Bool
  didEnable : Bool
  isRotational : Bool
  deviceUnitsPerUm : ℚ
  lastMovementStart : ℚ
  pollingIntervalMs : ℚ
  motorDrive : Option MotorDrive
deriving DecidableEq

/-- One hardware command issued through the handle, for tracking which
vendor calls a controller method performs. -/
inductive HwAction where
  | connect
  | requestPosition
  | requestStatusBits
  | startPolling (intervalMs : ℚ)
  | setChannelEnabled (enabled : Bool)
  | stopPolling
  | moveToPosition (steps : Int)
  | homeCmd
deriving DecidableEq

/-- State after construction: `homed_(false), initialized_(false)` from the
constructor initializer list (lines 72-81). The remaining defaults
(`didEnable_`, `isRotational_`, `pollingIntervalMs_`, and the zero-valued
`MM::MMTime lastMovementStart_`) are declared in `SingleAxisStage.h`, which
is not among the source files; they are modelled from the spec's data model:
`didEnableOnInit` is recorded at Initialize (hence initially false), the
polling interval is a fixed constant, and `deviceUnitsPerPhysicalUnit` is
undefined before Initialize (zero placeholder). -/
def initialStage (pollingMs : ℚ) : SingleAxisStage :=
  { homed := false
    initialized := false
    didEnable := false
    isRotational := false
    deviceUnitsPerUm := 0
    lastMovementStart := 0
    pollingIntervalMs := pollingMs
    motorDrive := none }

/-- `SingleAxisStage::Initialize` (lines 135-209). Returns the MM status
code, the updated member state, and the hardware commands issued, in order.
The host property reads (`GetProperty`) are modelled by `cfg`; property
creation (line 202) is a host call assumed to succeed; the 100 ms sleep
(line 187) has no effect on state. On a null result from `Connect()` the
code returns `DEVICE_ERR`; on an invalid connection it returns the
offset-encoded connection error, in both cases before storing the handle.
After the handle is stored (line 146), each failing step returns the
offset-encoded code without resetting `motorDrive_`. -/
def Initialize (dev : MotorDrive) (cfg : StageConfig) (s : SingleAxisStage) :
    Int × SingleAxisStage × List HwAction :=
  if s.initialized then (DEVICE_OK, s, [])
  else if dev.connectReturnsNull then (DEVICE_ERR, s, [HwAction.connect])
  else if !dev.connectionValid then
    (ERR_OFFSET + dev.connectionError, s, [HwAction.connect])
  else
    let isRot := !cfg.stageTypeIsLinear
    let dupu :=
      if isRot then cfg.deviceUnitsPerRevolution / 360
      else cfg.deviceUnitsPerMillimeter / 1000
    let s1 := { s with motorDrive := some dev, isRotational := isRot,
                       deviceUnitsPerUm := dupu }
    if dev.requestPositionErr ≠ 0 then
      (ERR_OFFSET + dev.requestPositionErr, s1,
        [HwAction.connect, HwAction.requestPosition])
    else if dev.requestStatusBitsErr ≠ 0 then
      (ERR_OFFSET + dev.requestStatusBitsErr, s1,
        [HwAction.connect, HwAction.requestPosition, HwAction.requestStatusBits])
    else
      let acts := [HwAction.connect, HwAction.requestPosition,
                   HwAction.requestStatusBits,
                   HwAction.startPolling s.pollingIntervalMs]
      if !dev.isChannelEnabled then
        if dev.setChannelEnabledErr ≠ 0 then
          (ERR_OFFSET + dev.setChannelEnabledErr, s1,
            acts ++ [HwAction.setChannelEnabled true])
        else
          (DEVICE_OK, { s1 with didEnable := true, initialized := true },
            acts ++ [HwAction.setChannelEnabled true])
      else
        (DEVICE_OK, { s1 with initialized := true }, acts)

/-- `SingleAxisStage::Shutdown` (lines 212-223). When `didEnable_` is set
the code calls `motorDrive_->SetChannelEnabled(false)` without a null
check; with an absent handle this dereferences null (`none`). `StopPolling`
is guarded by `if (motorDrive_)`. Neither `didEnable_` nor `initialized_`
nor `homed_` is reset. -/
def Shutdown (s : SingleAxisStage) : Option (Int × SingleAxisStage × List HwAction) :=
  match s.motorDrive with
  | some _ =>
      some (DEVICE_OK, { s with motorDrive := none },
        (if s.didEnable then [HwAction.setChannelEnabled false] else []) ++
          [HwAction.stopPolling])
  | none =>
      if s.didEnable then none
      else some (DEVICE_OK, { s with motorDrive := none }, [])

/-- `SingleAxisStage::Busy` (lines 254-278). Within one polling interval
plus a 10 ms margin of the last movement start it returns true before
touching the handle; afterwards it reads the polled status bits and tests
the five motion bits with bitwise OR. -/
def Busy (now : ℚ) (s : SingleAxisStage) : Option Bool :=
  if now - s.lastMovementStart ≤ s.pollingIntervalMs + 10 then some true
  else
    match s.motorDrive with
    | none => none
    | some d =>
        some (d.statusBits &&&
          (StatusBitsMovingCW ||| StatusBitsMovingCCW |||
           StatusBitsJoggingCW ||| StatusBitsJoggingCCW |||
           StatusBitsHoming) != 0)

/-- `SingleAxisStage::SetPositionSteps` (lines 330-342). On LP64 platforms
`long` is wider than `int`, so the incoming value is clamped again (the
narrower-`long` branch is the identity cast, and every caller in this file
passes an already clamped value, so the branches agree). On a rejected
command the offset-encoded error is returned and `lastMovementStart_` is
left unchanged; on success it is set to the current time. -/
def SetPositionSteps (now : ℚ) (steps : Int) (s : SingleAxisStage) :
    Option (Int × SingleAxisStage × List HwAction) :=
  match s.motorDrive with
  | none => none
  | some d =>
      let iSteps := clamp_int steps
      if d.moveToPositionErr ≠ 0 then
        some (ERR_OFFSET + d.moveToPositionErr, s, [HwAction.moveToPosition iSteps])
      else
        some (DEVICE_OK, { s with lastMovementStart := now },
          [HwAction.moveToPosition iSteps])

/-- `SingleAxisStage::SetPositionUm` (lines 294-299):
`std::round(pos * deviceUnitsPerUm_)` then `clamp_int`, then
`SetPositionSteps`. -/
def SetPositionUm (now : ℚ) (pos : ℚ) (s : SingleAxisStage) :
    Option (Int × SingleAxisStage × List HwAction) :=
  SetPositionSteps now (clamp_int (roundAwayFromZero (pos * s.deviceUnitsPerUm))) s

/-- `SingleAxisStage::Home` (lines 345-363). `CanHome` is checked first;
then the already-homed early return; then `home()` is issued: on a nonzero
code the offset-encoded error is returned with no state change, otherwise
`homed_` is set and `lastMovementStart_` recorded. -/
def Home (now : ℚ) (s : SingleAxisStage) :
    Option (Int × SingleAxisStage × List HwAction) :=
  match s.motorDrive with
  | none => none
  | some d =>
      if !d.canHome then some (DEVICE_UNSUPPORTED_COMMAND, s, [])
      else if s.homed then some (DEVICE_OK, s, [])
      else if d.homeErr ≠ 0 then
        some (ERR_OFFSET + d.homeErr, s, [HwAction.homeCmd])
      else
        some (DEVICE_OK, { s with homed := true, lastMovementStart := now },
          [HwAction.homeCmd])

/-- A hardware environment in which every call succeeds and the channel is
already enabled. -/
def devOk : MotorDrive :=
  { connectReturnsNull := false
    connectionValid := true
    connectionError := 0
    requestPositionErr := 0
    requestStatusBitsErr := 0
    startPollingOk := true
    isChannelEnabled := true
    setChannelEnabledErr := 0
    moveToPositionErr := 0
    canHome := true
    homeErr := 0
    statusBits := 0
    positionCounter := 0 }

/-- Like `devOk` but the channel starts disabled, so `Initialize` performs
the enable and records `didEnable_`. -/
def devNeedsEnable : MotorDrive := { devOk with isChannelEnabled := false }

/-- Environment whose `RequestPosition` call fails with vendor code 5. -/
def devReqPosFails : MotorDrive := { devOk with requestPositionErr := 5 }

/-- Environment whose connection is invalid with vendor error 5. -/
def devBadConnection : MotorDrive :=
  { devOk with connectionValid := false, connectionError := 5 }

/-- Environment in which motion commands are rejected: `MoveToPosition`
returns 4 and `Home` returns 9. -/
def devCmdFails : MotorDrive := { devOk with moveToPositionErr := 4, homeErr := 9 }

/-- The linear scenario configuration: `StageType = Linear`,
`DeviceUnitsPerMillimeter = 1228800`. -/
def cfgLin : StageConfig :=
  { stageTypeIsLinear := true
    deviceUnitsPerMillimeter := 1228800
    deviceUnitsPerRevolution := 360 }

/-- The rotational scenario configuration: `StageType = Rotational`,
`DeviceUnitsPerRevolution = 49152000`. -/
def cfgRot : StageConfig :=
  { stageTypeIsLinear := false
    deviceUnitsPerMillimeter := 1000
    deviceUnitsPerRevolution := 49152000 }

/-- A freshly constructed controller with a 200 ms polling interval. -/
def stage0 : SingleAxisStage := initialStage 200

/-- Controller state after a successful `Initialize` in the linear
scenario. -/
def sLinReady : SingleAxisStage := (Initialize devOk cfgLin stage0).2.1

/-- Controller state after a successful `Initialize` in the rotational
scenario. -/
def sRotReady : SingleAxisStage := (Initialize devOk cfgRot stage0).2.1

/-- Controller state after an `Initialize` that had to enable the channel
(so `didEnable_` is recorded). -/
def sEnabledReady : SingleAxisStage := (Initialize devNeedsEnable cfgLin stage0).2.1

/-- State after the first `Shutdown` of `sEnabledReady`. -/
def sEnabledShut : SingleAxisStage :=
  ((Shutdown sEnabledReady).getD (0, sEnabledReady, [])).2.1

/-- State after `Shutdown` of the linear ready state. -/
def sLinShut : SingleAxisStage := ((Shutdown sLinReady).getD (0, sLinReady, [])).2.1

/-- The linear ready state with a handle to the command-rejecting
environment. -/
def sCmdFails : SingleAxisStage := { sLinReady with motorDrive := some devCmdFails }

theorem le_clamp_int (v : Int) : intMin ≤ clamp_int v :=
  le_max_left _ _

theorem clamp_int_le (v : Int) : clamp_int v ≤ intMax :=
  max_le (by decide) (min_le_left _ _)

theorem clamp_int_eq_self {v : Int} (h1 : intMin ≤ v) (h2 : v ≤ intMax) :
    clamp_int v = v := by
  unfold clamp_int
  rw [min_eq_right h2, max_eq_right h1]

theorem clamp_int_of_ge {v : Int} (h : intMax ≤ v) : clamp_int v = intMax := by
  unfold clamp_int
  rw [min_eq_left h, max_eq_right (by decide)]

theorem clamp_int_of_le {v : Int} (h : v ≤ intMin) : clamp_int v = intMin := by
  unfold clamp_int
  rw [min_eq_right (le_trans h (by decide)), max_eq_left h]

theorem clamp_int_idem (v : Int) : clamp_int (clamp_int v) = clamp_int v :=
  clamp_int_eq_self (le_clamp_int v) (clamp_int_le v)

/-- Evaluation of `SetPositionUm` when the handle is present and the move
command is accepted: the clamp applied again inside `SetPositionSteps` is
collapsed by idempotence. -/
theorem setPositionUm_ok (now pos : ℚ) (s : SingleAxisStage) (d : MotorDrive)
    (h : s.motorDrive = some d) (he : d.moveToPositionErr = 0) :
    SetPositionUm now pos s = some (DEVICE_OK, { s with lastMovementStart := now },
      [HwAction.moveToPosition
        (clamp_int (roundAwayFromZero (pos * s.deviceUnitsPerUm)))]) := by
  simp [SetPositionUm, SetPositionSteps, h, he, clamp_int_idem]

theorem roundAway_half_um : roundAwayFromZero ((1 / 2 : ℚ) * (1228800 / 1000)) = 614 := by
  rw [roundAwayFromZero, if_pos (by norm_num), Int.floor_eq_iff]
  norm_num

theorem roundAway_500_um : roundAwayFromZero ((500 : ℚ) * (1228800 / 1000)) = 614400 := by
  rw [roundAwayFromZero, if_pos (by norm_num), Int.floor_eq_iff]
  norm_num

theorem roundAway_90_deg : roundAwayFromZero ((90 : ℚ) * (49152000 / 360)) = 12288000 := by
  rw [roundAwayFromZero, if_pos (by norm_num), Int.floor_eq_iff]
  norm_num

theorem half_um_actions :
    (SetPositionUm 0 (1 / 2) sLinReady).map (fun r => r.2.2) =
      some [HwAction.moveToPosition 614] := by
  rw [setPositionUm_ok 0 (1 / 2) sLinReady devOk rfl rfl]
  have hdu : sLinReady.deviceUnitsPerUm = 1228800 / 1000 := rfl
  simp only [Option.map_some']
  rw [hdu, roundAway_half_um]
  decide

theorem um500_actions :
    (SetPositionUm 0 500 sLinReady).map (fun r => r.2.2) =
      some [HwAction.moveToPosition 614400] := by
  rw [setPositionUm_ok 0 500 sLinReady devOk rfl rfl]
  have hdu : sLinReady.deviceUnitsPerUm = 1228800 / 1000 := rfl
  simp only [Option.map_some']
  rw [hdu, roundAway_500_um]
  decide

theorem deg90_actions :
    (SetPositionUm 0 90 sRotReady).map (fun r => r.2.2) =
      some [HwAction.moveToPosition 12288000] := by
  rw [setPositionUm_ok 0 90 sRotReady devOk rfl rfl]
  have hdu : sRotReady.deviceUnitsPerUm = 49152000 / 360 := rfl
  simp only [Option.map_some']
  rw [hdu, roundAway_90_deg]
  decide

/-- C7: once the controller is Ready (`initialized_` set), `Initialize`
returns success immediately, with the state unchanged and no hardware
command issued. -/
theorem initialize_idempotent (dev : MotorDrive) (cfg : StageConfig)
    (s : SingleAxisStage) (h : s.initialized = true) :
    Initialize dev cfg s = (DEVICE_OK, s, []) := by
  simp [Initialize, h]

/-- Witness for `initialize_idempotent` at the state reached by a
successful linear-scenario `Initialize`. -/
theorem initialize_idempotent_witness :
    sLinReady.initialized = true ∧
    Initialize devOk cfgLin sLinReady = (DEVICE_OK, sLinReady, []) :=
  ⟨rfl, initialize_idempotent devOk cfgLin sLinReady rfl⟩

/-- C1 counterexample: a run of `Initialize` in which `RequestPosition`
fails with vendor code 5 returns the nonzero offset-encoded code, yet the
handle stored at line 146 is still held afterwards, refuting the claim
that every failing `Initialize` leaves no handle retained. -/
theorem initialize_nonzero_return_retains_handle_cex :
    (Initialize devReqPosFails cfgLin stage0).1 = ERR_OFFSET + 5 ∧
    (Initialize devReqPosFails cfgLin stage0).1 ≠ 0 ∧
    (Initialize devReqPosFails cfgLin stage0).2.1.motorDrive = some devReqPosFails := by
  refine ⟨rfl, by decide, rfl⟩

/-- C1 (amended): when the connection open fails — a null result from
`Connect()` (returning `DEVICE_ERR`) or an invalid connection (returning
the offset-encoded connection error) — the handle is never stored and the
state is untouched; but when a later step (`RequestPosition`,
`RequestStatusBits`, or the channel enable) fails after the handle was
stored, `Initialize` returns the offset-encoded error with the handle
still stored — it is not rolled back. -/
theorem initialize_failure_handle_disposition (dev : MotorDrive)
    (cfg : StageConfig) (s : SingleAxisStage) (hinit : s.initialized = false) :
    (dev.connectReturnsNull = true →
      Initialize dev cfg s = (DEVICE_ERR, s, [HwAction.connect])) ∧
    (dev.connectReturnsNull = false → dev.connectionValid = false →
      Initialize dev cfg s = (ERR_OFFSET + dev.connectionError, s, [HwAction.connect])) ∧
    (dev.connectReturnsNull = false → dev.connectionValid = true →
      dev.requestPositionErr ≠ 0 →
      (Initialize dev cfg s).1 = ERR_OFFSET + dev.requestPositionErr ∧
      (Initialize dev cfg s).2.1.motorDrive = some dev) ∧
    (dev.connectReturnsNull = false → dev.connectionValid = true →
      dev.requestPositionErr = 0 → dev.requestStatusBitsErr ≠ 0 →
      (Initialize dev cfg s).1 = ERR_OFFSET + dev.requestStatusBitsErr ∧
      (Initialize dev cfg s).2.1.motorDrive = some dev) ∧
    (dev.connectReturnsNull = false → dev.connectionValid = true →
      dev.requestPositionErr = 0 → dev.requestStatusBitsErr = 0 →
      dev.isChannelEnabled = false → dev.setChannelEnabledErr ≠ 0 →
      (Initialize dev cfg s).1 = ERR_OFFSET + dev.setChannelEnabledErr ∧
      (Initialize dev cfg s).2.1.motorDrive = some dev) := by
  refine ⟨fun hn => ?_, fun hn hv => ?_, fun hn hv h1 => ?_,
    fun hn hv h1 h2 => ?_, fun hn hv h1 h2 h3 h4 => ?_⟩ <;>
    simp [Initialize, hinit, *]

/-- Witness for `initialize_failure_handle_disposition` on a fresh
controller facing an invalid connection with vendor error 5. -/
theorem initialize_failure_handle_disposition_witness :
    stage0.initialized = false ∧
    ((devBadConnection.connectReturnsNull = true →
      Initialize devBadConnection cfgLin stage0 =
        (DEVICE_ERR, stage0, [HwAction.connect])) ∧
    (devBadConnection.connectReturnsNull = false →
      devBadConnection.connectionValid = false →
      Initialize devBadConnection cfgLin stage0 =
        (ERR_OFFSET + devBadConnection.connectionError, stage0, [HwAction.connect])) ∧
    (devBadConnection.connectReturnsNull = false →
      devBadConnection.connectionValid = true →
      devBadConnection.requestPositionErr ≠ 0 →
      (Initialize devBadConnection cfgLin stage0).1 =
        ERR_OFFSET + devBadConnection.requestPositionErr ∧
      (Initialize devBadConnection cfgLin stage0).2.1.motorDrive = some devBadConnection) ∧
    (devBadConnection.connectReturnsNull = false →
      devBadConnection.connectionValid = true →
      devBadConnection.requestPositionErr = 0 →
      devBadConnection.requestStatusBitsErr ≠ 0 →
      (Initialize devBadConnection cfgLin stage0).1 =
        ERR_OFFSET + devBadConnection.requestStatusBitsErr ∧
      (Initialize devBadConnection cfgLin stage0).2.1.motorDrive = some devBadConnection) ∧
    (devBadConnection.connectReturnsNull = false →
      devBadConnection.connectionValid = true →
      devBadConnection.requestPositionErr = 0 →
      devBadConnection.requestStatusBitsErr = 0 →
      devBadConnection.isChannelEnabled = false →
      devBadConnection.setChannelEnabledErr ≠ 0 →
      (Initialize devBadConnection cfgLin stage0).1 =
        ERR_OFFSET + devBadConnection.setChannelEnabledErr ∧
      (Initialize devBadConnection cfgLin stage0).2.1.motorDrive = some devBadConnection)) :=
  ⟨rfl, initialize_failure_handle_disposition devBadConnection cfgLin stage0 rfl⟩

/-- C2: evaluation of the code at the failing input. An `Initialize` that
had to enable the channel records `didEnable_`; `Shutdown` releases the
handle but never clears `didEnable_`, so a second consecutive `Shutdown`
runs `motorDrive_->SetChannelEnabled(false)` on the absent handle —
modelled as `none` (a null dereference, undefined behaviour). -/
theorem shutdown_second_call_derefs_absent_handle :
    (Initialize devNeedsEnable cfgLin stage0).1 = DEVICE_OK ∧
    sEnabledReady.didEnable = true ∧
    (Shutdown sEnabledReady).isSome = true ∧
    sEnabledShut.didEnable = true ∧
    sEnabledShut.motorDrive = none ∧
    Shutdown sEnabledShut = none :=
  ⟨rfl, rfl, rfl, rfl, rfl, rfl⟩

/-- C3 counterexample: after a successful `Initialize` and a `Shutdown`,
the `initialized_` flag is still true — `Shutdown` (lines 212-223) never
resets it — and the next `Initialize` returns success immediately as a
no-op, issuing no hardware command, instead of redoing the setup. -/
theorem shutdown_not_reset_initialized_cex :
    (Initialize devOk cfgLin stage0).1 = DEVICE_OK ∧
    (Shutdown sLinReady).isSome = true ∧
    sLinShut.initialized = true ∧
    Initialize devOk cfgLin sLinShut = (DEVICE_OK, sLinShut, []) :=
  ⟨rfl, rfl, rfl, rfl⟩

/-- C3 (amended): `Shutdown` releases the handle but does not reset the
`initialized_` flag, so after a successful Initialize/Shutdown cycle the
controller still reports initialized and the next `Initialize` returns
success immediately as a no-op, performing no hardware setup — the state
machine is not reusable without recreating the device object. -/
theorem shutdown_keeps_initialized_and_next_initialize_noop
    (dev : MotorDrive) (cfg : StageConfig) (s : SingleAxisStage)
    (r : Int × SingleAxisStage × List HwAction) (h : Shutdown s = some r) :
    r.2.1.initialized = s.initialized ∧ r.2.1.motorDrive = none ∧
    (s.initialized = true →
      Initialize dev cfg r.2.1 = (DEVICE_OK, r.2.1, [])) := by
  have hfields : r.2.1.initialized = s.initialized ∧ r.2.1.motorDrive = none := by
    cases hmd : s.motorDrive with
    | some d =>
        simp only [Shutdown, hmd, Option.some.injEq] at h
        rw [← h]
        exact ⟨rfl, rfl⟩
    | none =>
        cases hde : s.didEnable with
        | true => simp [Shutdown, hmd, hde] at h
        | false =>
            simp only [Shutdown, hmd, hde, Bool.false_eq_true, reduceIte,
              Option.some.injEq] at h
            rw [← h]
            exact ⟨rfl, rfl⟩
  refine ⟨hfields.1, hfields.2, fun hi => ?_⟩
  have h2 : r.2.1.initialized = true := by rw [hfields.1, hi]
  simp [Initialize, h2]

/-- Witness for `shutdown_keeps_initialized_and_next_initialize_noop` at
the Shutdown run following the successful linear-scenario Initialize. -/
theorem shutdown_keeps_initialized_witness :
    Shutdown sLinReady = some (DEVICE_OK, sLinShut, [HwAction.stopPolling]) ∧
    (sLinShut.initialized = sLinReady.initialized ∧ sLinShut.motorDrive = none ∧
      (sLinReady.initialized = true →
        Initialize devOk cfgLin sLinShut = (DEVICE_OK, sLinShut, []))) :=
  ⟨rfl, shutdown_keeps_initialized_and_next_initialize_noop devOk cfgLin sLinReady
    (DEVICE_OK, sLinShut, [HwAction.stopPolling]) rfl⟩

/-- C4 counterexample: in the linear scenario with
`DeviceUnitsPerMillimeter = 1228800` the factor computed at line 167 is
1228800/1000 = 1228.8 device units per micrometer, so `SetPositionUm(0.5)`
issues `moveToPosition` with step target `round(0.5 * 1228.8) = 614`, not
614400 as claimed. -/
theorem set_half_um_target_not_614400_cex :
    (Initialize devOk cfgLin stage0).1 = DEVICE_OK ∧
    (SetPositionUm 0 (1 / 2) sLinReady).map (fun r => r.2.2) =
      some [HwAction.moveToPosition 614] ∧
    (SetPositionUm 0 (1 / 2) sLinReady).map (fun r => r.2.2) ≠
      some [HwAction.moveToPosition 614400] := by
  refine ⟨rfl, half_um_actions, ?_⟩
  rw [half_um_actions]
  decide

/-- C4 (amended): with axis kind Linear and device-units-per-millimeter
1228800, after `Initialize` the call `SetPositionUm(0.5)` issues
`moveToPosition` with step target 614 (the runtime unit is micrometers:
0.5 * 1228.8 = 614.4, rounded to 614); the claimed target 614400
corresponds to half a millimeter, i.e. `SetPositionUm(500)`. -/
theorem set_half_um_moves_to_614 :
    (Initialize devOk cfgLin stage0).1 = DEVICE_OK ∧
    (SetPositionUm 0 (1 / 2) sLinReady).map (fun r => r.2.2) =
      some [HwAction.moveToPosition 614] ∧
    (SetPositionUm 0 500 sLinReady).map (fun r => r.2.2) =
      some [HwAction.moveToPosition 614400] :=
  ⟨rfl, half_um_actions, um500_actions⟩

/-- C8: with axis kind Rotational and device-units-per-revolution
49152000, after `Initialize` the factor is 49152000/360 device units per
degree, and `SetPositionUm(90)` issues `moveToPosition` with step target
`round(90 * 49152000/360) = 12288000`. -/
theorem rotational_90_degrees_moves_to_12288000 :
    (Initialize devOk cfgRot stage0).1 = DEVICE_OK ∧
    (SetPositionUm 0 90 sRotReady).map (fun r => r.2.2) =
      some [HwAction.moveToPosition 12288000] :=
  ⟨rfl, deg90_actions⟩

theorem land_lor_distrib (x a b : Nat) : x &&& (a ||| b) = x &&& a ||| x &&& b :=
  Nat.eq_of_testBit_eq fun i => by
    simp [Nat.testBit_land, Nat.testBit_lor, Bool.and_or_distrib_left]

theorem lor_eq_zero_iff (a b : Nat) : a ||| b = 0 ↔ a = 0 ∧ b = 0 := by
  constructor
  · intro h
    constructor <;> apply Nat.zero_of_testBit_eq_false <;> intro i <;>
      · have hi : (a ||| b).testBit i = false := by
          rw [h]
          exact Nat.zero_testBit i
        rw [Nat.testBit_lor] at hi
        first
        | exact (Bool.or_eq_false_iff.mp hi).1
        | exact (Bool.or_eq_false_iff.mp hi).2
  · rintro ⟨ha, hb⟩
    rw [ha, hb]
    rfl

theorem lor_ne_zero_iff (a b : Nat) : a ||| b ≠ 0 ↔ a ≠ 0 ∨ b ≠ 0 := by
  rw [Ne, lor_eq_zero_iff, not_and_or]

/-- The combined motion mask tested by `Busy` is nonzero exactly when one
of the five named bits is present in the status word. -/
theorem status_mask_decomp (x : Nat) :
    x &&& (StatusBitsMovingCW ||| StatusBitsMovingCCW ||| StatusBitsJoggingCW |||
      StatusBitsJoggingCCW ||| StatusBitsHoming) ≠ 0 ↔
    (x &&& StatusBitsMovingCW ≠ 0 ∨ x &&& StatusBitsMovingCCW ≠ 0 ∨
     x &&& StatusBitsJoggingCW ≠ 0 ∨ x &&& StatusBitsJoggingCCW ≠ 0 ∨
     x &&& StatusBitsHoming ≠ 0) := by
  simp only [land_lor_distrib, lor_ne_zero_iff]
  tauto

/-- C5: `Busy` is two-phase. Within `pollingIntervalMs_ + 10` milliseconds
of the last recorded movement start it returns true unconditionally,
regardless of the polled status bits; at any later time it returns true
exactly when the latest polled status bitmask has at least one of the
moving-CW, moving-CCW, jogging-CW, jogging-CCW or homing bits set. -/
theorem busy_two_phase (now : ℚ) (s : SingleAxisStage) (d : MotorDrive)
    (h : s.motorDrive = some d) :
    (now - s.lastMovementStart ≤ s.pollingIntervalMs + 10 →
      Busy now s = some true) ∧
    (s.pollingIntervalMs + 10 < now - s.lastMovementStart →
      (Busy now s = some true ↔
        (d.statusBits &&& StatusBitsMovingCW ≠ 0 ∨
         d.statusBits &&& StatusBitsMovingCCW ≠ 0 ∨
         d.statusBits &&& StatusBitsJoggingCW ≠ 0 ∨
         d.statusBits &&& StatusBitsJoggingCCW ≠ 0 ∨
         d.statusBits &&& StatusBitsHoming ≠ 0))) := by
  constructor
  · intro hle
    simp [Busy, hle]
  · intro hgt
    have hnle : ¬ now - s.lastMovementStart ≤ s.pollingIntervalMs + 10 :=
      not_le.mpr hgt
    have hb : Busy now s = some (d.statusBits &&&
        (StatusBitsMovingCW ||| StatusBitsMovingCCW ||| StatusBitsJoggingCW |||
         StatusBitsJoggingCCW ||| StatusBitsHoming) != 0) := by
      simp [Busy, hnle, h]
    rw [hb, Option.some.injEq]
    rw [show ∀ x : Nat, ∀ y : Nat, ((x != y) = true) = (x ≠ y) from
      fun x y => by simp [bne_iff_ne]]
    exact status_mask_decomp d.statusBits

/-- Witness for `busy_two_phase` just after the linear-scenario
`Initialize`, five milliseconds past the (zero) movement-start time. -/
theorem busy_two_phase_witness :
    sLinReady.motorDrive = some devOk ∧
    ((5 - sLinReady.lastMovementStart ≤ sLinReady.pollingIntervalMs + 10 →
      Busy 5 sLinReady = some true) ∧
     (sLinReady.pollingIntervalMs + 10 < 5 - sLinReady.lastMovementStart →
      (Busy 5 sLinReady = some true ↔
        (devOk.statusBits &&& StatusBitsMovingCW ≠ 0 ∨
         devOk.statusBits &&& StatusBitsMovingCCW ≠ 0 ∨
         devOk.statusBits &&& StatusBitsJoggingCW ≠ 0 ∨
         devOk.statusBits &&& StatusBitsJoggingCCW ≠ 0 ∨
         devOk.statusBits &&& StatusBitsHoming ≠ 0)))) :=
  ⟨rfl, busy_two_phase 5 sLinReady devOk rfl⟩

/-- C6: `Home` is a no-op success when already homed (given the run
invariant that `homed_` can only have been set after a successful
`CanHome` check on the same handle); it fails with the
unsupported-operation code when `CanHome` is false; otherwise it issues
`home()`, and exactly on hardware success it sets `homed_` and records the
movement-start timestamp. -/
theorem home_semantics (now : ℚ) (s : SingleAxisStage) (d : MotorDrive)
    (h : s.motorDrive = some d) (hinv : s.homed = true → d.canHome = true) :
    (s.homed = true → Home now s = some (DEVICE_OK, s, [])) ∧
    (d.canHome = false → Home now s = some (DEVICE_UNSUPPORTED_COMMAND, s, [])) ∧
    (d.canHome = true → s.homed = false → d.homeErr = 0 →
      Home now s = some (DEVICE_OK,
        { s with homed := true, lastMovementStart := now }, [HwAction.homeCmd])) ∧
    (d.canHome = true → s.homed = false → d.homeErr ≠ 0 →
      Home now s = some (ERR_OFFSET + d.homeErr, s, [HwAction.homeCmd])) := by
  refine ⟨fun hh => ?_, fun hc => ?_, fun hc hh he => ?_, fun hc hh he => ?_⟩
  · have hc := hinv hh
    simp [Home, h, hc, hh]
  · simp [Home, h, hc]
  · simp [Home, h, hc, hh, he]
  · simp [Home, h, hc, hh, he]

/-- Witness for `home_semantics` on the linear-scenario ready state, whose
hardware supports homing and accepts the command. -/
theorem home_semantics_witness :
    sLinReady.motorDrive = some devOk ∧
    (sLinReady.homed = true → devOk.canHome = true) ∧
    ((sLinReady.homed = true → Home 7 sLinReady = some (DEVICE_OK, sLinReady, [])) ∧
     (devOk.canHome = false →
      Home 7 sLinReady = some (DEVICE_UNSUPPORTED_COMMAND, sLinReady, [])) ∧
     (devOk.canHome = true → sLinReady.homed = false → devOk.homeErr = 0 →
      Home 7 sLinReady = some (DEVICE_OK,
        { sLinReady with homed := true, lastMovementStart := 7 },
        [HwAction.homeCmd])) ∧
     (devOk.canHome = true → sLinReady.homed = false → devOk.homeErr ≠ 0 →
      Home 7 sLinReady = some (ERR_OFFSET + devOk.homeErr, sLinReady,
        [HwAction.homeCmd]))) :=
  ⟨rfl, fun _ => rfl, home_semantics 7 sLinReady devOk rfl (fun _ => rfl)⟩

theorem roundAway_abs_le (q : ℚ) :
    |((roundAwayFromZero q : ℤ) : ℚ) - q| ≤ 1 / 2 := by
  rw [abs_le]
  by_cases hq : 0 ≤ q
  · simp only [roundAwayFromZero, if_pos hq]
    have h1 : ((⌊q + 1 / 2⌋ : ℤ) : ℚ) ≤ q + 1 / 2 := Int.floor_le _
    have h2 : q + 1 / 2 - 1 < ((⌊q + 1 / 2⌋ : ℤ) : ℚ) := Int.sub_one_lt_floor _
    constructor <;> linarith
  · simp only [roundAwayFromZero, if_neg hq]
    have h1 : q - 1 / 2 ≤ ((⌈q - 1 / 2⌉ : ℤ) : ℚ) := Int.le_ceil _
    have h2 : ((⌈q - 1 / 2⌉ : ℤ) : ℚ) < q - 1 / 2 + 1 := Int.ceil_lt_add_one _
    constructor <;> linarith

theorem roundAway_ge_of_gt {q : ℚ} (h : (intMax : ℚ) < q) :
    intMax ≤ roundAwayFromZero q := by
  have hq : 0 ≤ q := by
    have h0 : (0 : ℚ) ≤ (intMax : ℚ) := by norm_num [intMax]
    linarith
  simp only [roundAwayFromZero, if_pos hq]
  rw [Int.le_floor]
  linarith

theorem roundAway_le_of_lt {q : ℚ} (h : q < (intMin : ℚ)) :
    roundAwayFromZero q ≤ intMin := by
  have hq : ¬ 0 ≤ q := by
    have h0 : (intMin : ℚ) < 0 := by norm_num [intMin]
    linarith
  simp only [roundAwayFromZero, if_neg hq]
  rw [Int.ceil_le]
  linarith

/-- C9: the physical-to-step conversion of `SetPositionUm` rounds to the
nearest integer (within one half) and saturates to the signed 32-bit range
(clamp, not wraparound) before the target reaches `moveToPosition`: the
issued target is always in range, a scaled value above the maximum yields
the maximum, and one below the minimum yields the minimum. -/
theorem setPositionUm_rounds_and_saturates (now pos : ℚ) (s : SingleAxisStage)
    (d : MotorDrive) (h : s.motorDrive = some d) :
    (∃ r, SetPositionUm now pos s = some r ∧
      r.2.2 = [HwAction.moveToPosition
        (clamp_int (roundAwayFromZero (pos * s.deviceUnitsPerUm)))]) ∧
    intMin ≤ clamp_int (roundAwayFromZero (pos * s.deviceUnitsPerUm)) ∧
    clamp_int (roundAwayFromZero (pos * s.deviceUnitsPerUm)) ≤ intMax ∧
    ((intMax : ℚ) < pos * s.deviceUnitsPerUm →
      clamp_int (roundAwayFromZero (pos * s.deviceUnitsPerUm)) = intMax) ∧
    (pos * s.deviceUnitsPerUm < (intMin : ℚ) →
      clamp_int (roundAwayFromZero (pos * s.deviceUnitsPerUm)) = intMin) ∧
    |((roundAwayFromZero (pos * s.deviceUnitsPerUm) : ℤ) : ℚ) -
      pos * s.deviceUnitsPerUm| ≤ 1 / 2 := by
  refine ⟨?_, le_clamp_int _, clamp_int_le _,
    fun hgt => clamp_int_of_ge (roundAway_ge_of_gt hgt),
    fun hlt => clamp_int_of_le (roundAway_le_of_lt hlt),
    roundAway_abs_le _⟩
  by_cases he : d.moveToPositionErr = 0
  · exact ⟨_, setPositionUm_ok now pos s d h he, rfl⟩
  · refine ⟨(ERR_OFFSET + d.moveToPositionErr, s,
      [HwAction.moveToPosition
        (clamp_int (roundAwayFromZero (pos * s.deviceUnitsPerUm)))]), ?_, rfl⟩
    simp [SetPositionUm, SetPositionSteps, h, he, clamp_int_idem]

/-- Witness for `setPositionUm_rounds_and_saturates` at two micrometers on
the linear-scenario ready state. -/
theorem setPositionUm_rounds_and_saturates_witness :
    sLinReady.motorDrive = some devOk ∧
    ((∃ r, SetPositionUm 0 2 sLinReady = some r ∧
      r.2.2 = [HwAction.moveToPosition
        (clamp_int (roundAwayFromZero (2 * sLinReady.deviceUnitsPerUm)))]) ∧
     intMin ≤ clamp_int (roundAwayFromZero (2 * sLinReady.deviceUnitsPerUm)) ∧
     clamp_int (roundAwayFromZero (2 * sLinReady.deviceUnitsPerUm)) ≤ intMax ∧
     ((intMax : ℚ) < 2 * sLinReady.deviceUnitsPerUm →
       clamp_int (roundAwayFromZero (2 * sLinReady.deviceUnitsPerUm)) = intMax) ∧
     (2 * sLinReady.deviceUnitsPerUm < (intMin : ℚ) →
       clamp_int (roundAwayFromZero (2 * sLinReady.deviceUnitsPerUm)) = intMin) ∧
     |((roundAwayFromZero (2 * sLinReady.deviceUnitsPerUm) : ℤ) : ℚ) -
       2 * sLinReady.deviceUnitsPerUm| ≤ 1 / 2) :=
  ⟨rfl, setPositionUm_rounds_and_saturates 0 2 sLinReady devOk rfl⟩

/-- C10: when the hardware rejects the command (nonzero vendor code), both
`SetPositionUm` (through `SetPositionSteps`) and `Home` return the
offset-encoded error with the controller state unchanged — in particular
`lastMovementStart_` is not re-armed and `homed_` keeps its prior value;
those fields change only on a successful command. -/
theorem failed_command_leaves_state_unchanged (now pos : ℚ)
    (s : SingleAxisStage) (d : MotorDrive) (h : s.motorDrive = some d) :
    (d.moveToPositionErr ≠ 0 →
      SetPositionUm now pos s = some (ERR_OFFSET + d.moveToPositionErr, s,
        [HwAction.moveToPosition
          (clamp_int (roundAwayFromZero (pos * s.deviceUnitsPerUm)))])) ∧
    (d.canHome = true → s.homed = false → d.homeErr ≠ 0 →
      Home now s = some (ERR_OFFSET + d.homeErr, s, [HwAction.homeCmd])) := by
  refine ⟨fun he => ?_, fun hc hh he => ?_⟩
  · simp [SetPositionUm, SetPositionSteps, h, he, clamp_int_idem]
  · simp [Home, h, hc, hh, he]

/-- Witness for `failed_command_leaves_state_unchanged` on a ready state
whose hardware rejects moves with code 4 and homing with code 9. -/
theorem failed_command_leaves_state_unchanged_witness :
    sCmdFails.motorDrive = some devCmdFails ∧
    ((devCmdFails.moveToPositionErr ≠ 0 →
      SetPositionUm 3 1 sCmdFails = some (ERR_OFFSET + devCmdFails.moveToPositionErr,
        sCmdFails, [HwAction.moveToPosition
          (clamp_int (roundAwayFromZero (1 * sCmdFails.deviceUnitsPerUm)))])) ∧
     (devCmdFails.canHome = true → sCmdFails.homed = false →
      devCmdFails.homeErr ≠ 0 →
      Home 3 sCmdFails = some (ERR_OFFSET + devCmdFails.homeErr, sCmdFails,
        [HwAction.homeCmd]))) :=
  ⟨rfl, failed_command_leaves_state_unchanged 3 1 sCmdFails devCmdFails rfl⟩

end Kinesis
